import Mathlib

/-!
Verification of the deterministic core of the Financial-Agent repository:
the Policy Engine (eligibility predicates and terms calculators), the Tool
Registry dispatch, the conversation orchestrator loop `sense_plan_act`, and
the consent-gated conversation logger.  Currency amounts and risk scores are
modelled as exact rationals; Python's `round(x, 2)` and the `:.2f` format are
modelled by round-half-to-even at two decimal places; wall-clock timestamps
are threaded as opaque strings.
-/

/-- Round a rational to the nearest integer, ties to even (Python `round`). -/
def round_half_even (q : ℚ) : ℤ :=
  if q - ⌊q⌋ < 1/2 then ⌊q⌋
  else if 1/2 < q - ⌊q⌋ then ⌊q⌋ + 1
  else if ⌊q⌋ % 2 = 0 then ⌊q⌋ else ⌊q⌋ + 1

/-- Python `round(q, 2)`: round to two decimal places, ties to even. -/
def round2 (q : ℚ) : ℚ := (round_half_even (q * 100) : ℚ) / 100

/-- Two-digit zero padding for the cents part of a formatted amount. -/
def pad2 (n : ℕ) : String := if n < 10 then "0" ++ toString n else toString n

/-- Python `f"{q:.2f}"`: fixed-point rendering with two decimals. -/
def fmt2 (q : ℚ) : String :=
  let n := round_half_even (q * 100)
  let sign := if n < 0 then "-" else ""
  sign ++ toString (n.natAbs / 100) ++ "." ++ pad2 (n.natAbs % 100)

/-- The `CustomerProfile` dataclass of `financial_agent.py`. -/
structure CustomerProfile where
  id : String
  name : String
  amount_due : ℚ
  days_late : ℤ
  payment_history : String
  risk_score : ℚ
  consent_to_store_transcript : Bool
  transcript_retention_days : ℤ
deriving DecidableEq

/-- Result dict of `PolicyEngine.calculate_payment_plan_terms`. -/
structure PaymentPlanTerms where
  installments : ℤ
  monthly_payment : ℚ
  total_amount : ℚ
deriving DecidableEq

/-- Result dict of `PolicyEngine.calculate_settlement_discount`. -/
structure SettlementOffer where
  original_amount : ℚ
  discount_rate : ℚ
  discount_amount : ℚ
  final_amount : ℚ
deriving DecidableEq

namespace PolicyEngine

/-- `PolicyEngine.check_payment_plan_eligibility` (financial_agent.py, lines
26-44): reasons are accumulated in source order and joined with " and ". -/
def check_payment_plan_eligibility (c : CustomerProfile) : Bool × String :=
  let reasons : List String :=
    (if c.amount_due > 1000 then
      ["balance exceeds €1,000 (current: €" ++ fmt2 c.amount_due ++ ")"] else []) ++
    (if c.days_late > 30 then
      ["payment is overdue by more than 30 days (current: " ++ toString c.days_late ++ " days)"] else []) ++
    (if c.payment_history = "poor" then
      ["payment history is classified as poor"] else []) ++
    (if c.risk_score > 65/100 then
      ["risk score is too high (current: " ++ fmt2 c.risk_score ++ ")"] else [])
  if reasons.isEmpty then (true, "all eligibility criteria are met")
  else (false, String.intercalate " and " reasons)

/-- `PolicyEngine.check_immediate_settlement_discount` (lines 47-62). -/
def check_immediate_settlement_discount (c : CustomerProfile) : Bool × String :=
  let reasons : List String :=
    (if c.days_late > 15 then
      ["payment is overdue by more than 15 days (current: " ++ toString c.days_late ++ " days)"] else []) ++
    (if c.payment_history ≠ "good" then
      ["payment history must be \x27good\x27"] else []) ++
    (if c.risk_score > 30/100 then
      ["risk score exceeds 0.30 (current: " ++ fmt2 c.risk_score ++ ")"] else [])
  if reasons.isEmpty then (true, "all criteria for settlement discount are met")
  else (false, String.intercalate " and " reasons)

/-- `PolicyEngine.calculate_payment_plan_terms` (lines 64-84): re-invokes the
eligibility predicate, then tiers the installment count by amount. -/
def calculate_payment_plan_terms (c : CustomerProfile) : Option PaymentPlanTerms :=
  let eligible := (check_payment_plan_eligibility c).1
  if eligible then
    let installments : ℤ :=
      if c.amount_due ≤ 300 then 3
      else if c.amount_due ≤ 600 then 4
      else 6
    let monthly_payment := c.amount_due / (installments : ℚ)
    some { installments := installments
           monthly_payment := round2 monthly_payment
           total_amount := c.amount_due }
  else none

/-- `PolicyEngine.calculate_settlement_discount` (lines 86-102): the final
amount is computed from the UNROUNDED discount and rounded afterwards. -/
def calculate_settlement_discount (c : CustomerProfile) : Option SettlementOffer :=
  let eligible := (check_immediate_settlement_discount c).1
  if eligible then
    let discount_rate : ℚ := 5/100
    let discount_amount := c.amount_due * discount_rate
    let final_amount := c.amount_due - discount_amount
    some { original_amount := c.amount_due
           discount_rate := discount_rate * 100
           discount_amount := round2 discount_amount
           final_amount := round2 final_amount }
  else none

end PolicyEngine

/-- One entry of `ConversationLogger.log` (timestamp, role, content). -/
structure LogMessage where
  timestamp : String
  role : String
  content : String
deriving DecidableEq

/-- The record `ConversationLogger.save_to_file` persists for a consenting
customer (financial_agent.py, lines 196-202). -/
structure LogRecord where
  customer_id : String
  customer_name : String
  conversation_date : String
  retention_days : ℤ
  messages : List LogMessage
deriving DecidableEq

namespace ConversationLogger

/-- `ConversationLogger.add_message` (lines 183-189): appends an entry only
when the customer consented to transcript storage. -/
def add_message (c : CustomerProfile) (now : String) (log : List LogMessage)
    (role content : String) : List LogMessage :=
  if c.consent_to_store_transcript then log ++ [⟨now, role, content⟩] else log

/-- `ConversationLogger.save_to_file` (lines 191-210): returns the persisted
record, or `none` when consent is absent (the source prints a warning and
returns without writing). -/
def save_to_file (c : CustomerProfile) (now : String) (log : List LogMessage) :
    Option LogRecord :=
  if c.consent_to_store_transcript then
    some { customer_id := c.id
           customer_name := c.name
           conversation_date := now
           retention_days := c.transcript_retention_days
           messages := log }
  else none

end ConversationLogger

/-- A structured (JSON-like) tool result payload. -/
inductive JVal where
  | b (x : Bool)
  | s (x : String)
  | q (x : ℚ)
  | i (x : ℤ)
  | obj (fields : List (String × JVal))

/-- A tool-call request from the responder: correlation id, capability name,
argument mapping (JSON object decoded by `json.loads`). -/
structure ToolCall where
  id : String
  name : String
  args : List (String × String)
deriving DecidableEq

/-- One entry of `FinancialAgent.conversation_history`. -/
inductive Turn where
  | user (content : String)
  | assistantCalls (content : String) (tool_calls : List ToolCall)
  | tool (tool_call_id : String) (name : String) (content : JVal)
  | assistant (content : String)

namespace ToolRegistry

/-- The six keys of the `self.tools` dict (financial_agent.py, lines 109-116). -/
def registered_tool_names : List String :=
  ["check_payment_plan_eligibility", "get_payment_plan_options",
   "check_settlement_discount_eligibility", "get_settlement_discount_details",
   "escalate_to_human", "log_customer_question"]

/-- Required keyword arguments of each handler: `escalate_to_human(reason)`
and `log_customer_question(question)`; the four policy tools take none. -/
def required_params (name : String) : List String :=
  match name with
  | "escalate_to_human" => ["reason"]
  | "log_customer_question" => ["question"]
  | _ => []

/-- Whether `handler(**args)` binds: Python raises `TypeError` when a required
keyword is missing or an unexpected keyword is supplied. -/
def bind_ok (name : String) (args : List (String × String)) : Bool :=
  let keys := args.map Prod.fst
  (required_params name).all (fun p => keys.contains p) &&
    keys.all (fun k => (required_params name).contains k)

/-- Look up a string argument bound by `**args`. -/
def get_arg (args : List (String × String)) (k : String) : String :=
  (((args.find? (fun p => p.1 == k)).map Prod.snd).getD "")

/-- The payload produced by the handler registered under `name` in
`ToolRegistry.tools` (lines 118-175), closed over customer `c`; `now` stands
for `datetime.now().isoformat()`. -/
def tool_output (c : CustomerProfile) (now : String) (name : String)
    (args : List (String × String)) : JVal :=
  match name with
  | "check_payment_plan_eligibility" =>
      .obj [("eligible", .b (PolicyEngine.check_payment_plan_eligibility c).1),
            ("reason", .s (PolicyEngine.check_payment_plan_eligibility c).2),
            ("customer_id", .s c.id)]
  | "get_payment_plan_options" =>
      match PolicyEngine.calculate_payment_plan_terms c with
      | none =>
          .obj [("available", .b false),
                ("reason", .s ("Not eligible because " ++
                  (PolicyEngine.check_payment_plan_eligibility c).2))]
      | some t =>
          .obj [("available", .b true),
                ("terms", .obj [("installments", .i t.installments),
                                ("monthly_payment", .q t.monthly_payment),
                                ("total_amount", .q t.total_amount)])]
  | "check_settlement_discount_eligibility" =>
      .obj [("eligible", .b (PolicyEngine.check_immediate_settlement_discount c).1),
            ("reason", .s (PolicyEngine.check_immediate_settlement_discount c).2),
            ("customer_id", .s c.id)]
  | "get_settlement_discount_details" =>
      match PolicyEngine.calculate_settlement_discount c with
      | none =>
          .obj [("available", .b false),
                ("reason", .s ("Not eligible because " ++
                  (PolicyEngine.check_immediate_settlement_discount c).2))]
      | some d =>
          .obj [("available", .b true),
                ("discount", .obj [("original_amount", .q d.original_amount),
                                   ("discount_rate", .q d.discount_rate),
                                   ("discount_amount", .q d.discount_amount),
                                   ("final_amount", .q d.final_amount)])]
  | "escalate_to_human" =>
      .obj [("escalated", .b true), ("reason", .s (get_arg args "reason")),
            ("customer_id", .s c.id), ("timestamp", .s now)]
  | "log_customer_question" =>
      .obj [("logged", .b true), ("question", .s (get_arg args "question")),
            ("customer_id", .s c.id)]
  | _ => .obj []

end ToolRegistry

/-- The tool Turn recorded for a dispatched call (lines 396-401). -/
def tool_turn (c : CustomerProfile) (now : String) (tc : ToolCall) : Turn :=
  Turn.tool tc.id tc.name (ToolRegistry.tool_output c now tc.name tc.args)

/-- The tool-dispatch loop of `sense_plan_act` (lines 389-401): calls are
processed synchronously in responder order; an unregistered name is skipped
with no result turn; a registered name whose arguments do not bind raises an
uncaught `TypeError`, modelled as `Except.error`, aborting the whole loop. -/
def dispatch_tool_calls (c : CustomerProfile) (now : String) :
    List ToolCall → Except String (List Turn × List ToolCall)
  | [] => .ok ([], [])
  | tc :: rest =>
      if ToolRegistry.registered_tool_names.contains tc.name then
        if ToolRegistry.bind_ok tc.name tc.args then
          match dispatch_tool_calls c now rest with
          | .error e => .error e
          | .ok (ts, ds) => .ok (tool_turn c now tc :: ts, tc :: ds)
        else .error ("TypeError: bad arguments for " ++ tc.name)
      else dispatch_tool_calls c now rest

/-- Outcome of one `sense_plan_act` turn, instrumented with the ordered list
of responder invocations (their tool-use flags) and of dispatched calls. -/
structure RunResult where
  history : List Turn
  response : String
  responder_tool_flags : List Bool
  dispatched : List ToolCall
  log : List LogMessage

/-- Appending the optional incoming customer text (lines 359-364): the
customer Turn and the consent-gated transcript entry. -/
def with_user_input (c : CustomerProfile) (now : String) (hist : List Turn)
    (log : List LogMessage) : Option String → List Turn × List LogMessage
  | some u => (hist ++ [Turn.user u], ConversationLogger.add_message c now log "customer" u)
  | none => (hist, log)

/-- `FinancialAgent.sense_plan_act` (lines 358-415), parameterised by the
external responder `resp` (conversation so far, tools-enabled flag ↦ text
content and requested tool calls).  Zero requested calls: the first content is
final.  Otherwise the pending calls are recorded as one agent Turn, dispatched
in order, and a second, tools-disabled responder call produces the final
text.  An argument-binding `TypeError` propagates (`Except.error`). -/
def sense_plan_act (resp : List Turn → Bool → String × List ToolCall)
    (c : CustomerProfile) (now : String) (hist0 : List Turn)
    (log0 : List LogMessage) (user_input : Option String) :
    Except String RunResult :=
  let s := with_user_input c now hist0 log0 user_input
  let pc := resp s.1 true
  if pc.2.isEmpty then
    .ok { history := s.1 ++ [Turn.assistant pc.1]
          response := pc.1
          responder_tool_flags := [true]
          dispatched := []
          log := ConversationLogger.add_message c now s.2 "agent" pc.1 }
  else
    match dispatch_tool_calls c now pc.2 with
    | .error e => .error e
    | .ok (toolTurns, ds) =>
        let hist3 := s.1 ++ [Turn.assistantCalls pc.1 pc.2] ++ toolTurns
        let rc := resp hist3 false
        .ok { history := hist3 ++ [Turn.assistant rc.1]
              response := rc.1
              responder_tool_flags := [true, false]
              dispatched := ds
              log := ConversationLogger.add_message c now s.2 "agent" rc.1 }

namespace PolicyEngineState

/-- `check_payment_plan_eligibility` as a state transformer over the profile:
the source method only reads `customer` attributes and performs no write. -/
def check_payment_plan_eligibilityM : StateM CustomerProfile (Bool × String) := do
  let c ← get
  pure (PolicyEngine.check_payment_plan_eligibility c)

/-- `check_immediate_settlement_discount` as a state transformer. -/
def check_immediate_settlement_discountM : StateM CustomerProfile (Bool × String) := do
  let c ← get
  pure (PolicyEngine.check_immediate_settlement_discount c)

/-- `calculate_payment_plan_terms` as a state transformer. -/
def calculate_payment_plan_termsM : StateM CustomerProfile (Option PaymentPlanTerms) := do
  let c ← get
  pure (PolicyEngine.calculate_payment_plan_terms c)

/-- `calculate_settlement_discount` as a state transformer. -/
def calculate_settlement_discountM : StateM CustomerProfile (Option SettlementOffer) := do
  let c ← get
  pure (PolicyEngine.calculate_settlement_discount c)

end PolicyEngineState

/-- Spec test vector: amount 500, 10 days late, good history, risk 0.2. -/
def c_spec500 : CustomerProfile := ⟨"CUST001", "Anna", 500, 10, "good", 2/10, true, 30⟩

/-- Spec test vector: amount 1200, other attributes in normal ranges. -/
def c_amount1200 : CustomerProfile := ⟨"CUST002", "Ben", 1200, 10, "good", 2/10, true, 30⟩

/-- Spec test vector: 20 days late, good history, risk 0.1, amount 400. -/
def c_days20 : CustomerProfile := ⟨"CUST003", "Cara", 400, 20, "good", 1/10, true, 30⟩

/-- Amount 1.005: a sub-cent amount separating the two rounding orders for the
settlement final amount; otherwise settlement-eligible. -/
def c_tenth_cent : CustomerProfile := ⟨"CUST004", "Dan", 201/200, 0, "good", 2/10, true, 30⟩

/-- Amount 100: three installments of 33.33 do not sum back to 100. -/
def c_amount100 : CustomerProfile := ⟨"CUST005", "Eve", 100, 5, "good", 2/10, true, 30⟩

/-- A customer who has not consented to transcript storage. -/
def c_no_consent : CustomerProfile := ⟨"CUST006", "Finn", 200, 5, "good", 2/10, false, 30⟩

/-- Responder that answers in plain text and requests no tool calls. -/
def resp_chat : List Turn → Bool → String × List ToolCall :=
  fun _ _ => ("hello", [])

/-- Responder whose first (tools-enabled) call requests one hallucinated,
unregistered capability. -/
def resp_unregistered : List Turn → Bool → String × List ToolCall :=
  fun _ use_tools =>
    if use_tools then ("plan", [⟨"call_1", "make_coffee", []⟩]) else ("done", [])

/-- Responder requesting two registered calls with well-bound arguments. -/
def resp_two_tools : List Turn → Bool → String × List ToolCall :=
  fun _ use_tools =>
    if use_tools then
      ("plan", [⟨"call_1", "log_customer_question", [("question", "q1")]⟩,
                ⟨"call_2", "escalate_to_human", [("reason", "r1")]⟩])
    else ("done", [])

/-- Responder requesting `escalate_to_human` with the required `reason`
argument missing. -/
def resp_bad_escalate : List Turn → Bool → String × List ToolCall :=
  fun _ use_tools =>
    if use_tools then ("plan", [⟨"call_1", "escalate_to_human", []⟩]) else ("done", [])

/-- Responder requesting one unregistered capability followed by one
registered, well-bound call. -/
def resp_mixed : List Turn → Bool → String × List ToolCall :=
  fun _ use_tools =>
    if use_tools then
      ("plan", [⟨"call_1", "make_coffee", []⟩,
                ⟨"call_2", "log_customer_question", [("question", "q1")]⟩])
    else ("done", [])

/-- The outcome of the first (tools-enabled) responder call of a turn:
content and requested tool calls. -/
def plan_phase (resp : List Turn → Bool → String × List ToolCall)
    (c : CustomerProfile) (now : String) (hist0 : List Turn)
    (log0 : List LogMessage) (inp : Option String) : String × List ToolCall :=
  resp (with_user_input c now hist0 log0 inp).1 true

/-- The conversation visible to the second responder call when every
requested capability is registered: the pending-calls agent Turn followed by
one tool Turn per requested call, in request order. -/
def mid_history_all (resp : List Turn → Bool → String × List ToolCall)
    (c : CustomerProfile) (now : String) (hist0 : List Turn)
    (log0 : List LogMessage) (inp : Option String) : List Turn :=
  (with_user_input c now hist0 log0 inp).1
    ++ [Turn.assistantCalls (plan_phase resp c now hist0 log0 inp).1
          (plan_phase resp c now hist0 log0 inp).2]
    ++ (plan_phase resp c now hist0 log0 inp).2.map (tool_turn c now)

/-- The conversation visible to the second responder call in general: one
tool Turn per REGISTERED requested call, unregistered names skipped. -/
def mid_history_reg (resp : List Turn → Bool → String × List ToolCall)
    (c : CustomerProfile) (now : String) (hist0 : List Turn)
    (log0 : List LogMessage) (inp : Option String) : List Turn :=
  (with_user_input c now hist0 log0 inp).1
    ++ [Turn.assistantCalls (plan_phase resp c now hist0 log0 inp).1
          (plan_phase resp c now hist0 log0 inp).2]
    ++ ((plan_phase resp c now hist0 log0 inp).2.filter
          (fun tc => ToolRegistry.registered_tool_names.contains tc.name)).map
        (tool_turn c now)

/-- The text of the second (tools-disabled) responder call, over the
all-registered mid-turn conversation. -/
def respond_phase_all (resp : List Turn → Bool → String × List ToolCall)
    (c : CustomerProfile) (now : String) (hist0 : List Turn)
    (log0 : List LogMessage) (inp : Option String) : String :=
  (resp (mid_history_all resp c now hist0 log0 inp) false).1

/-- The text of the second (tools-disabled) responder call, over the
registered-only mid-turn conversation. -/
def respond_phase_reg (resp : List Turn → Bool → String × List ToolCall)
    (c : CustomerProfile) (now : String) (hist0 : List Turn)
    (log0 : List LogMessage) (inp : Option String) : String :=
  (resp (mid_history_reg resp c now hist0 log0 inp) false).1

/-- C1: for every CustomerProfile, `check_payment_plan_eligibility` returns
eligible = false exactly when amount due > 1000, or days late > 30, or
payment history is "poor", or risk score > 0.65; when ineligible the reason
is the " and "-join of one fragment per failing condition, each carrying the
offending value, in the fixed order amount, days-late, history, risk; when
no condition fails it returns eligible = true. -/
theorem payment_plan_eligibility_spec (c : CustomerProfile) :
    ((PolicyEngine.check_payment_plan_eligibility c).1 = false ↔
      (c.amount_due > 1000 ∨ c.days_late > 30 ∨ c.payment_history = "poor" ∨
        c.risk_score > 65/100))
    ∧ ((PolicyEngine.check_payment_plan_eligibility c).1 = false →
        (PolicyEngine.check_payment_plan_eligibility c).2 =
          String.intercalate " and "
            ((if c.amount_due > 1000 then
                ["balance exceeds €1,000 (current: €" ++ fmt2 c.amount_due ++ ")"] else []) ++
             (if c.days_late > 30 then
                ["payment is overdue by more than 30 days (current: " ++
                  toString c.days_late ++ " days)"] else []) ++
             (if c.payment_history = "poor" then
                ["payment history is classified as poor"] else []) ++
             (if c.risk_score > 65/100 then
                ["risk score is too high (current: " ++ fmt2 c.risk_score ++ ")"] else [])))
    ∧ ((PolicyEngine.check_payment_plan_eligibility c).1 = true ↔
        ¬(c.amount_due > 1000 ∨ c.days_late > 30 ∨ c.payment_history = "poor" ∨
          c.risk_score > 65/100)) := by
  unfold PolicyEngine.check_payment_plan_eligibility
  by_cases h1 : c.amount_due > 1000 <;> by_cases h2 : c.days_late > 30 <;>
    by_cases h3 : c.payment_history = "poor" <;> by_cases h4 : c.risk_score > 65/100 <;>
    simp [h1, h2, h3, h4]

/-- C1 witness: at amount 1200 (other attributes normal) the customer is
payment-plan ineligible and the reason is exactly the amount-exceeds
fragment carrying €1200.00. -/
theorem payment_plan_eligibility_spec_witness :
    (PolicyEngine.check_payment_plan_eligibility c_amount1200).1 = false ∧
    (PolicyEngine.check_payment_plan_eligibility c_amount1200).2 =
      "balance exceeds €1,000 (current: €1200.00)" := by
  have h1 : (PolicyEngine.check_payment_plan_eligibility c_amount1200).1 = false := by
    rw [(payment_plan_eligibility_spec c_amount1200).1]
    unfold c_amount1200
    norm_num
  refine ⟨h1, ?_⟩
  rw [(payment_plan_eligibility_spec c_amount1200).2.1 h1]
  have h : round_half_even ((1200 : ℚ) * 100) = 120000 := by
    simp only [round_half_even]; norm_num
  unfold c_amount1200
  simp only [fmt2, h]
  norm_num
  decide

/-- C4: for every CustomerProfile, `check_immediate_settlement_discount`
returns eligible = false exactly when days late > 15, or payment history is
not "good", or risk score > 0.30, reporting every failing condition as a
fragment joined with " and " in that fixed order; the profile with 20 days
late, good history, risk 0.1 and amount 400 is settlement-ineligible with
the days-late fragment while remaining payment-plan eligible with 4
installments. -/
theorem settlement_eligibility_spec :
    (∀ c : CustomerProfile,
      ((PolicyEngine.check_immediate_settlement_discount c).1 = false ↔
        (c.days_late > 15 ∨ c.payment_history ≠ "good" ∨ c.risk_score > 30/100))
      ∧ ((PolicyEngine.check_immediate_settlement_discount c).1 = false →
          (PolicyEngine.check_immediate_settlement_discount c).2 =
            String.intercalate " and "
              ((if c.days_late > 15 then
                  ["payment is overdue by more than 15 days (current: " ++
                    toString c.days_late ++ " days)"] else []) ++
               (if c.payment_history ≠ "good" then
                  ["payment history must be \x27good\x27"] else []) ++
               (if c.risk_score > 30/100 then
                  ["risk score exceeds 0.30 (current: " ++ fmt2 c.risk_score ++ ")"] else []))))
    ∧ (PolicyEngine.check_immediate_settlement_discount c_days20).1 = false
    ∧ (PolicyEngine.check_immediate_settlement_discount c_days20).2 =
        "payment is overdue by more than 15 days (current: 20 days)"
    ∧ PolicyEngine.calculate_payment_plan_terms c_days20 = some ⟨4, 100, 400⟩ := by
  refine ⟨fun c => ?_, ?_, ?_, ?_⟩
  · unfold PolicyEngine.check_immediate_settlement_discount
    by_cases h1 : c.days_late > 15 <;> by_cases h2 : c.payment_history = "good" <;>
      by_cases h3 : c.risk_score > 30/100 <;> simp [h1, h2, h3]
  · unfold PolicyEngine.check_immediate_settlement_discount c_days20
    norm_num
  · unfold PolicyEngine.check_immediate_settlement_discount c_days20
    norm_num
    decide
  · unfold PolicyEngine.calculate_payment_plan_terms
      PolicyEngine.check_payment_plan_eligibility c_days20
    simp only [round2, round_half_even]
    norm_num
    decide

/-- C4 witness: instantiating the universal part at the 20-days-late profile
discharges the ineligibility hypothesis and reproduces the days-late
fragment. -/
theorem settlement_eligibility_spec_witness :
    (PolicyEngine.check_immediate_settlement_discount c_days20).2 =
      String.intercalate " and "
        ((if c_days20.days_late > 15 then
            ["payment is overdue by more than 15 days (current: " ++
              toString c_days20.days_late ++ " days)"] else []) ++
         (if c_days20.payment_history ≠ "good" then
            ["payment history must be \x27good\x27"] else []) ++
         (if c_days20.risk_score > 30/100 then
            ["risk score exceeds 0.30 (current: " ++ fmt2 c_days20.risk_score ++ ")"] else [])) :=
  (settlement_eligibility_spec.1 c_days20).2 settlement_eligibility_spec.2.1

/-- C5: for every CustomerProfile, `calculate_payment_plan_terms` returns
`none` exactly when `check_payment_plan_eligibility` is false; otherwise
installments are 3 for amount ≤ 300, 4 for amount ≤ 600, else 6, the monthly
payment is the amount divided by the installments rounded to 2 decimals, and
the total amount is the amount due unchanged; amount 500 (10 days late, good
history, risk 0.2) yields 4 installments of 125.00. -/
theorem payment_plan_terms_spec :
    (∀ c : CustomerProfile,
      (PolicyEngine.calculate_payment_plan_terms c = none ↔
        (PolicyEngine.check_payment_plan_eligibility c).1 = false)
      ∧ ((PolicyEngine.check_payment_plan_eligibility c).1 = true →
          PolicyEngine.calculate_payment_plan_terms c =
            some { installments :=
                     if c.amount_due ≤ 300 then 3
                     else if c.amount_due ≤ 600 then 4 else 6
                   monthly_payment := round2 (c.amount_due /
                     ((if c.amount_due ≤ 300 then (3 : ℤ)
                       else if c.amount_due ≤ 600 then 4 else 6) : ℚ))
                   total_amount := c.amount_due }))
    ∧ PolicyEngine.calculate_payment_plan_terms c_spec500 = some ⟨4, 125, 500⟩ := by
  constructor
  · intro c
    cases h : (PolicyEngine.check_payment_plan_eligibility c).1 <;>
      simp [PolicyEngine.calculate_payment_plan_terms, h]
  · unfold PolicyEngine.calculate_payment_plan_terms
      PolicyEngine.check_payment_plan_eligibility c_spec500
    simp only [round2, round_half_even]
    norm_num
    decide

/-- C5 witness: instantiating the universal part at the amount-500 profile
discharges the eligibility hypothesis and yields the tier-4 terms. -/
theorem payment_plan_terms_spec_witness :
    PolicyEngine.calculate_payment_plan_terms c_spec500 =
      some { installments :=
               if c_spec500.amount_due ≤ 300 then 3
               else if c_spec500.amount_due ≤ 600 then 4 else 6
             monthly_payment := round2 (c_spec500.amount_due /
               ((if c_spec500.amount_due ≤ 300 then (3 : ℤ)
                 else if c_spec500.amount_due ≤ 600 then 4 else 6) : ℚ))
             total_amount := c_spec500.amount_due } :=
  (payment_plan_terms_spec.1 c_spec500).2 (by
    unfold PolicyEngine.check_payment_plan_eligibility c_spec500
    norm_num
    decide)

/-- C2 counterexample: at amount 1.005 (an otherwise settlement-eligible
profile) the code returns final amount 0.95 = round2(1.005 − 1.005×0.05),
while subtracting the already-rounded discount (0.05) and rounding would give
round2(0.955) = 0.96: the claim's rounding order is not the code's. -/
theorem settlement_discount_rounding_counterexample :
    PolicyEngine.calculate_settlement_discount c_tenth_cent =
      some { original_amount := 201/200, discount_rate := 5,
             discount_amount := 1/20, final_amount := 19/20 }
    ∧ round2 (c_tenth_cent.amount_due - round2 (c_tenth_cent.amount_due * (5/100))) = 24/25
    ∧ (19/20 : ℚ) ≠ 24/25 := by
  refine ⟨?_, ?_, by norm_num⟩
  · unfold PolicyEngine.calculate_settlement_discount
      PolicyEngine.check_immediate_settlement_discount c_tenth_cent
    simp only [round2, round_half_even]
    norm_num
  · unfold c_tenth_cent
    simp only [round2, round_half_even]
    norm_num

/-- C2 amended: for every eligible CustomerProfile,
`calculate_settlement_discount` reports the discount amount as
round2(amount × 0.05), but computes the final amount as
round2(amount − amount × 0.05) from the UNROUNDED product; the rounded
discount is not the value subtracted.  Ineligible profiles get `none`. -/
theorem settlement_discount_amended (c : CustomerProfile) :
    ((PolicyEngine.check_immediate_settlement_discount c).1 = true →
      PolicyEngine.calculate_settlement_discount c =
        some { original_amount := c.amount_due
               discount_rate := 5
               discount_amount := round2 (c.amount_due * (5/100))
               final_amount := round2 (c.amount_due - c.amount_due * (5/100)) })
    ∧ ((PolicyEngine.check_immediate_settlement_discount c).1 = false →
      PolicyEngine.calculate_settlement_discount c = none) := by
  cases h : (PolicyEngine.check_immediate_settlement_discount c).1 <;>
    simp [PolicyEngine.calculate_settlement_discount, h]

/-- C2 witness: at the amount-500 profile the amended description evaluates
to discount 25.00 and final 475.00. -/
theorem settlement_discount_amended_witness :
    PolicyEngine.calculate_settlement_discount c_spec500 =
      some { original_amount := c_spec500.amount_due
             discount_rate := 5
             discount_amount := round2 (c_spec500.amount_due * (5/100))
             final_amount := round2 (c_spec500.amount_due - c_spec500.amount_due * (5/100)) } :=
  (settlement_discount_amended c_spec500).1 (by
    unfold PolicyEngine.check_immediate_settlement_discount c_spec500
    norm_num)

/-- C10: there is a payment-plan-eligible profile (amount due 100) whose
terms have installments × monthly payment ≠ total amount: three installments
of 33.33 total 99.99, not 100. -/
theorem installment_sum_mismatch :
    PolicyEngine.calculate_payment_plan_terms c_amount100 = some ⟨3, 3333/100, 100⟩
    ∧ (3 : ℚ) * (3333/100) ≠ (100 : ℚ) := by
  constructor
  · unfold PolicyEngine.calculate_payment_plan_terms
      PolicyEngine.check_payment_plan_eligibility c_amount100
    simp only [round2, round_half_even]
    norm_num
    decide
  · norm_num

/-- C8: each of the four Policy Engine operations, viewed as a state
transformer over the profile, returns the profile unchanged (no mutation),
agrees with the pure function of the profile, and evaluating it a second
time on the state it returned yields the identical result (deterministic). -/
theorem policy_engine_pure (c : CustomerProfile) :
    ((PolicyEngineState.check_payment_plan_eligibilityM.run c).2 = c
      ∧ (PolicyEngineState.check_payment_plan_eligibilityM.run c).1 =
          PolicyEngine.check_payment_plan_eligibility c
      ∧ (PolicyEngineState.check_payment_plan_eligibilityM.run
          ((PolicyEngineState.check_payment_plan_eligibilityM.run c).2)).1 =
          (PolicyEngineState.check_payment_plan_eligibilityM.run c).1)
    ∧ ((PolicyEngineState.check_immediate_settlement_discountM.run c).2 = c
      ∧ (PolicyEngineState.check_immediate_settlement_discountM.run c).1 =
          PolicyEngine.check_immediate_settlement_discount c
      ∧ (PolicyEngineState.check_immediate_settlement_discountM.run
          ((PolicyEngineState.check_immediate_settlement_discountM.run c).2)).1 =
          (PolicyEngineState.check_immediate_settlement_discountM.run c).1)
    ∧ ((PolicyEngineState.calculate_payment_plan_termsM.run c).2 = c
      ∧ (PolicyEngineState.calculate_payment_plan_termsM.run c).1 =
          PolicyEngine.calculate_payment_plan_terms c
      ∧ (PolicyEngineState.calculate_payment_plan_termsM.run
          ((PolicyEngineState.calculate_payment_plan_termsM.run c).2)).1 =
          (PolicyEngineState.calculate_payment_plan_termsM.run c).1)
    ∧ ((PolicyEngineState.calculate_settlement_discountM.run c).2 = c
      ∧ (PolicyEngineState.calculate_settlement_discountM.run c).1 =
          PolicyEngine.calculate_settlement_discount c
      ∧ (PolicyEngineState.calculate_settlement_discountM.run
          ((PolicyEngineState.calculate_settlement_discountM.run c).2)).1 =
          (PolicyEngineState.calculate_settlement_discountM.run c).1) :=
  ⟨⟨rfl, rfl, rfl⟩, ⟨rfl, rfl, rfl⟩, ⟨rfl, rfl, rfl⟩, ⟨rfl, rfl, rfl⟩⟩

/-- C9: without consent `add_message` leaves the log unchanged for every role
and content and `save_to_file` produces no record; with consent the saved
record carries the customer id, name, session timestamp, retention period,
and the ordered message list. -/
theorem transcript_consent_spec (c : CustomerProfile) (now : String)
    (log : List LogMessage) (role content : String) :
    (c.consent_to_store_transcript = false →
      ConversationLogger.add_message c now log role content = log ∧
      ConversationLogger.save_to_file c now log = none)
    ∧ (c.consent_to_store_transcript = true →
      ConversationLogger.add_message c now log role content = log ++ [⟨now, role, content⟩] ∧
      ConversationLogger.save_to_file c now log =
        some ⟨c.id, c.name, now, c.transcript_retention_days, log⟩) := by
  cases h : c.consent_to_store_transcript <;>
    simp [ConversationLogger.add_message, ConversationLogger.save_to_file, h]

/-- C9 witness: the non-consenting customer's log stays empty and nothing is
saved; the consenting customer's record carries the message list. -/
theorem transcript_consent_spec_witness :
    (ConversationLogger.add_message c_no_consent "t0" [] "customer" "hi" = [] ∧
      ConversationLogger.save_to_file c_no_consent "t0" [] = none)
    ∧ ConversationLogger.add_message c_spec500 "t0" [] "customer" "hi" =
        [⟨"t0", "customer", "hi"⟩]
    ∧ ConversationLogger.save_to_file c_spec500 "t0" [⟨"t0", "customer", "hi"⟩] =
        some ⟨c_spec500.id, c_spec500.name, "t0", c_spec500.transcript_retention_days,
          [⟨"t0", "customer", "hi"⟩]⟩ :=
  ⟨(transcript_consent_spec c_no_consent "t0" [] "customer" "hi").1 rfl,
   (by simpa using
     ((transcript_consent_spec c_spec500 "t0" [] "customer" "hi").2 rfl).1),
   ((transcript_consent_spec c_spec500 "t0" [⟨"t0", "customer", "hi"⟩] "customer" "hi").2 rfl).2⟩

/-- When every registered call in the list binds, the dispatch loop succeeds,
producing one tool Turn per registered call in responder order and skipping
unregistered names. -/
theorem dispatch_tool_calls_filter (c : CustomerProfile) (now : String)
    (calls : List ToolCall)
    (h : ∀ tc ∈ calls, tc.name ∈ ToolRegistry.registered_tool_names →
      ToolRegistry.bind_ok tc.name tc.args = true) :
    dispatch_tool_calls c now calls =
      .ok (((calls.filter (fun tc => ToolRegistry.registered_tool_names.contains tc.name)).map
              (tool_turn c now)),
           calls.filter (fun tc => ToolRegistry.registered_tool_names.contains tc.name)) := by
  induction calls with
  | nil => simp [dispatch_tool_calls]
  | cons tc rest ih =>
      have hrest : ∀ x ∈ rest, x.name ∈ ToolRegistry.registered_tool_names →
          ToolRegistry.bind_ok x.name x.args = true :=
        fun x hx => h x (List.mem_cons_of_mem _ hx)
      by_cases hreg : tc.name ∈ ToolRegistry.registered_tool_names
      · have hb := h tc (List.mem_cons_self _ _) hreg
        simp [dispatch_tool_calls, hreg, hb, ih hrest, List.filter_cons]
      · simp [dispatch_tool_calls, hreg, ih hrest, List.filter_cons]

/-- The dispatch loop aborts with a `TypeError` at the first registered call
whose arguments do not bind, provided the registered calls before it bind. -/
theorem dispatch_tool_calls_error (c : CustomerProfile) (now : String)
    (pre : List ToolCall) (bad : ToolCall) (post : List ToolCall)
    (hpre : ∀ tc ∈ pre, tc.name ∈ ToolRegistry.registered_tool_names →
      ToolRegistry.bind_ok tc.name tc.args = true)
    (hreg : bad.name ∈ ToolRegistry.registered_tool_names)
    (hbind : ToolRegistry.bind_ok bad.name bad.args = false) :
    dispatch_tool_calls c now (pre ++ bad :: post) =
      .error ("TypeError: bad arguments for " ++ bad.name) := by
  induction pre with
  | nil => simp [dispatch_tool_calls, hreg, hbind]
  | cons tc rest ih =>
      have hrest : ∀ x ∈ rest, x.name ∈ ToolRegistry.registered_tool_names →
          ToolRegistry.bind_ok x.name x.args = true :=
        fun x hx => hpre x (List.mem_cons_of_mem _ hx)
      by_cases hr : tc.name ∈ ToolRegistry.registered_tool_names
      · have hb := hpre tc (List.mem_cons_self _ _) hr
        simp [dispatch_tool_calls, hr, hb, ih hrest]
      · simp [dispatch_tool_calls, hr, ih hrest]

/-- When at least one tool call is requested and the dispatch loop succeeds,
`sense_plan_act` records the pending calls, the returned tool Turns, and the
final text of the second, tools-disabled responder call. -/
theorem sense_plan_act_ok_of_dispatch
    (resp : List Turn → Bool → String × List ToolCall) (c : CustomerProfile)
    (now : String) (hist0 : List Turn) (log0 : List LogMessage)
    (inp : Option String) (turns : List Turn) (ds : List ToolCall)
    (hne : (plan_phase resp c now hist0 log0 inp).2 ≠ [])
    (hd : dispatch_tool_calls c now (plan_phase resp c now hist0 log0 inp).2 =
      .ok (turns, ds)) :
    sense_plan_act resp c now hist0 log0 inp =
      .ok { history := (with_user_input c now hist0 log0 inp).1
              ++ [Turn.assistantCalls (plan_phase resp c now hist0 log0 inp).1
                    (plan_phase resp c now hist0 log0 inp).2]
              ++ turns
              ++ [Turn.assistant (resp ((with_user_input c now hist0 log0 inp).1
                    ++ [Turn.assistantCalls (plan_phase resp c now hist0 log0 inp).1
                          (plan_phase resp c now hist0 log0 inp).2]
                    ++ turns) false).1]
            response := (resp ((with_user_input c now hist0 log0 inp).1
                ++ [Turn.assistantCalls (plan_phase resp c now hist0 log0 inp).1
                      (plan_phase resp c now hist0 log0 inp).2]
                ++ turns) false).1
            responder_tool_flags := [true, false]
            dispatched := ds
            log := ConversationLogger.add_message c now
                (with_user_input c now hist0 log0 inp).2 "agent"
                (resp ((with_user_input c now hist0 log0 inp).1
                  ++ [Turn.assistantCalls (plan_phase resp c now hist0 log0 inp).1
                        (plan_phase resp c now hist0 log0 inp).2]
                  ++ turns) false).1 } := by
  unfold plan_phase at hne hd
  have hE : (resp (with_user_input c now hist0 log0 inp).1 true).2.isEmpty = false := by
    cases h : (resp (with_user_input c now hist0 log0 inp).1 true).2 with
    | nil => exact absurd h hne
    | cons a l => rfl
  unfold sense_plan_act
  simp [hE, hd, plan_phase]

/-- When at least one tool call is requested and the dispatch loop raises,
the whole turn aborts with that error: no error-result turn is recorded, no
second responder call happens, and no final message is produced. -/
theorem sense_plan_act_err_of_dispatch
    (resp : List Turn → Bool → String × List ToolCall) (c : CustomerProfile)
    (now : String) (hist0 : List Turn) (log0 : List LogMessage)
    (inp : Option String) (e : String)
    (hne : (plan_phase resp c now hist0 log0 inp).2 ≠ [])
    (hd : dispatch_tool_calls c now (plan_phase resp c now hist0 log0 inp).2 =
      .error e) :
    sense_plan_act resp c now hist0 log0 inp = .error e := by
  unfold plan_phase at hne hd
  have hE : (resp (with_user_input c now hist0 log0 inp).1 true).2.isEmpty = false := by
    cases h : (resp (with_user_input c now hist0 log0 inp).1 true).2 with
    | nil => exact absurd h hne
    | cons a l => rfl
  unfold sense_plan_act
  simp [hE, hd, plan_phase]

/-- C6 counterexample: the first responder call returns k = 1 tool call
(an unregistered capability), so two responder calls do occur, but zero tool
dispatches happen and no tool turn is produced — not exactly k = 1. -/
theorem orchestrator_protocol_counterexample :
    (resp_unregistered [Turn.user "hi"] true).2.length = 1
    ∧ sense_plan_act resp_unregistered c_no_consent "t0" [] [] (some "hi") =
        .ok { history := [Turn.user "hi",
                Turn.assistantCalls "plan" [⟨"call_1", "make_coffee", []⟩],
                Turn.assistant "done"]
              response := "done"
              responder_tool_flags := [true, false]
              dispatched := []
              log := [] }
    ∧ ([] : List ToolCall).length ≠ 1 := by
  exact ⟨rfl, rfl, by decide⟩

/-- C6 amended: for every user turn, if the first (tools-enabled) responder
call returns zero tool calls then exactly one responder call occurs and its
text is the final message; if it returns k ≥ 1 tool calls, ALL of which name
registered capabilities with well-binding arguments, then exactly two
responder calls occur (the second with tools disabled), exactly k dispatches
occur synchronously in request order, and each produces its own tool turn
correlated to its call's identifier, recorded before the second responder
call; an unregistered or ill-bound call breaks this count (see the
counterexample and C7/C3). -/
theorem orchestrator_protocol_amended
    (resp : List Turn → Bool → String × List ToolCall) (c : CustomerProfile)
    (now : String) (hist0 : List Turn) (log0 : List LogMessage)
    (inp : Option String) :
    ((plan_phase resp c now hist0 log0 inp).2 = [] →
      sense_plan_act resp c now hist0 log0 inp =
        .ok { history := (with_user_input c now hist0 log0 inp).1
                ++ [Turn.assistant (plan_phase resp c now hist0 log0 inp).1]
              response := (plan_phase resp c now hist0 log0 inp).1
              responder_tool_flags := [true]
              dispatched := []
              log := ConversationLogger.add_message c now
                (with_user_input c now hist0 log0 inp).2 "agent"
                (plan_phase resp c now hist0 log0 inp).1 })
    ∧ ((plan_phase resp c now hist0 log0 inp).2 ≠ [] →
       (∀ tc ∈ (plan_phase resp c now hist0 log0 inp).2,
         tc.name ∈ ToolRegistry.registered_tool_names ∧
         ToolRegistry.bind_ok tc.name tc.args = true) →
      sense_plan_act resp c now hist0 log0 inp =
        .ok { history := mid_history_all resp c now hist0 log0 inp
                ++ [Turn.assistant (respond_phase_all resp c now hist0 log0 inp)]
              response := respond_phase_all resp c now hist0 log0 inp
              responder_tool_flags := [true, false]
              dispatched := (plan_phase resp c now hist0 log0 inp).2
              log := ConversationLogger.add_message c now
                (with_user_input c now hist0 log0 inp).2 "agent"
                (respond_phase_all resp c now hist0 log0 inp) }) := by
  constructor
  · intro h0
    unfold plan_phase at h0 ⊢
    unfold sense_plan_act
    simp [h0]
  · intro hne hall
    have hfilt : (plan_phase resp c now hist0 log0 inp).2.filter
        (fun tc => ToolRegistry.registered_tool_names.contains tc.name) =
        (plan_phase resp c now hist0 log0 inp).2 :=
      List.filter_eq_self.mpr (fun tc htc => by simpa using (hall tc htc).1)
    have hd := dispatch_tool_calls_filter c now (plan_phase resp c now hist0 log0 inp).2
      (fun tc htc _ => (hall tc htc).2)
    rw [hfilt] at hd
    rw [sense_plan_act_ok_of_dispatch resp c now hist0 log0 inp _ _ hne hd]
    unfold mid_history_all respond_phase_all mid_history_all
    rfl

/-- C6 witness: a no-tool turn makes exactly one responder call whose text is
final; a two-registered-call turn makes two responder calls and two ordered
dispatches, each with its own correlated tool turn before the final text. -/
theorem orchestrator_protocol_amended_witness :
    sense_plan_act resp_chat c_no_consent "t0" [] [] (some "hi") =
      .ok { history := [Turn.user "hi", Turn.assistant "hello"]
            response := "hello"
            responder_tool_flags := [true]
            dispatched := []
            log := [] }
    ∧ sense_plan_act resp_two_tools c_no_consent "t0" [] [] (some "hi") =
      .ok { history := [Turn.user "hi",
              Turn.assistantCalls "plan"
                [⟨"call_1", "log_customer_question", [("question", "q1")]⟩,
                 ⟨"call_2", "escalate_to_human", [("reason", "r1")]⟩],
              Turn.tool "call_1" "log_customer_question"
                (JVal.obj [("logged", .b true), ("question", .s "q1"),
                           ("customer_id", .s "CUST006")]),
              Turn.tool "call_2" "escalate_to_human"
                (JVal.obj [("escalated", .b true), ("reason", .s "r1"),
                           ("customer_id", .s "CUST006"), ("timestamp", .s "t0")]),
              Turn.assistant "done"]
            response := "done"
            responder_tool_flags := [true, false]
            dispatched := [⟨"call_1", "log_customer_question", [("question", "q1")]⟩,
                           ⟨"call_2", "escalate_to_human", [("reason", "r1")]⟩]
            log := [] } := by
  constructor
  · have h := (orchestrator_protocol_amended resp_chat c_no_consent "t0" [] [] (some "hi")).1
      (by decide)
    rw [h]; rfl
  · have h := (orchestrator_protocol_amended resp_two_tools c_no_consent "t0" [] [] (some "hi")).2
      (by decide) (by decide)
    rw [h]; rfl

/-- C7: a tool-call request naming an unregistered capability is silently
dropped: provided the registered calls of the turn bind, the turn completes
normally (no error surfaced, second responder call still made), the
unregistered call is not dispatched and no tool turn bears its name, while
every registered call of the same turn is still dispatched, in order. -/
theorem unregistered_tool_dropped
    (resp : List Turn → Bool → String × List ToolCall) (c : CustomerProfile)
    (now : String) (hist0 : List Turn) (log0 : List LogMessage)
    (inp : Option String) (tc : ToolCall)
    (htc : tc ∈ (plan_phase resp c now hist0 log0 inp).2)
    (hunreg : tc.name ∉ ToolRegistry.registered_tool_names)
    (hbind : ∀ x ∈ (plan_phase resp c now hist0 log0 inp).2,
      x.name ∈ ToolRegistry.registered_tool_names →
      ToolRegistry.bind_ok x.name x.args = true) :
    sense_plan_act resp c now hist0 log0 inp =
      .ok { history := mid_history_reg resp c now hist0 log0 inp
              ++ [Turn.assistant (respond_phase_reg resp c now hist0 log0 inp)]
            response := respond_phase_reg resp c now hist0 log0 inp
            responder_tool_flags := [true, false]
            dispatched := (plan_phase resp c now hist0 log0 inp).2.filter
              (fun x => ToolRegistry.registered_tool_names.contains x.name)
            log := ConversationLogger.add_message c now
              (with_user_input c now hist0 log0 inp).2 "agent"
              (respond_phase_reg resp c now hist0 log0 inp) }
    ∧ tc ∉ (plan_phase resp c now hist0 log0 inp).2.filter
        (fun x => ToolRegistry.registered_tool_names.contains x.name)
    ∧ ∀ x ∈ (plan_phase resp c now hist0 log0 inp).2.filter
        (fun x => ToolRegistry.registered_tool_names.contains x.name),
        x.name ≠ tc.name := by
  have hne : (plan_phase resp c now hist0 log0 inp).2 ≠ [] := by
    intro h0
    rw [h0] at htc
    exact absurd htc (List.not_mem_nil tc)
  have hd := dispatch_tool_calls_filter c now (plan_phase resp c now hist0 log0 inp).2 hbind
  refine ⟨?_, ?_, ?_⟩
  · rw [sense_plan_act_ok_of_dispatch resp c now hist0 log0 inp _ _ hne hd]
    unfold mid_history_reg respond_phase_reg mid_history_reg
    rfl
  · intro hmem
    have := List.of_mem_filter hmem
    simp at this
    exact hunreg this
  · intro x hx hname
    have := List.of_mem_filter hx
    simp at this
    rw [hname] at this
    exact hunreg this

/-- C7 witness: a turn requesting the unregistered `make_coffee` followed by
a registered `log_customer_question` completes normally with exactly one
dispatch and one tool turn, none of them for the unregistered call. -/
theorem unregistered_tool_dropped_witness :
    sense_plan_act resp_mixed c_no_consent "t0" [] [] (some "hi") =
      .ok { history := [Turn.user "hi",
              Turn.assistantCalls "plan"
                [⟨"call_1", "make_coffee", []⟩,
                 ⟨"call_2", "log_customer_question", [("question", "q1")]⟩],
              Turn.tool "call_2" "log_customer_question"
                (JVal.obj [("logged", .b true), ("question", .s "q1"),
                           ("customer_id", .s "CUST006")]),
              Turn.assistant "done"]
            response := "done"
            responder_tool_flags := [true, false]
            dispatched := [⟨"call_2", "log_customer_question", [("question", "q1")]⟩]
            log := [] }
    ∧ (⟨"call_1", "make_coffee", []⟩ : ToolCall) ∉
        ([⟨"call_2", "log_customer_question", [("question", "q1")]⟩] : List ToolCall) := by
  have h := unregistered_tool_dropped resp_mixed c_no_consent "t0" [] [] (some "hi")
    ⟨"call_1", "make_coffee", []⟩ (by decide) (by decide) (by decide)
  constructor
  · rw [h.1]; rfl
  · have h2 := h.2.1
    simp only [plan_phase] at h2
    intro hm
    rw [List.mem_singleton] at hm
    exact absurd hm (by decide)

/-- C3 counterexample: a request for `escalate_to_human` with the required
`reason` argument missing makes `sense_plan_act` abort with an uncaught
TypeError — no structured error result turn is appended and the conversation
does not continue. -/
theorem binding_failure_not_caught :
    sense_plan_act resp_bad_escalate c_no_consent "t0" [] [] (some "hi") =
      .error "TypeError: bad arguments for escalate_to_human" := rfl

/-- C3 amended: a tool-call request whose registered capability's arguments
fail to bind is NOT caught: the TypeError propagates out of the dispatch
loop and the whole turn aborts with an error; no error result turn is
appended to the conversation and no final message is produced (registered
calls before the failing one do not save the turn either). -/
theorem binding_failure_aborts
    (resp : List Turn → Bool → String × List ToolCall) (c : CustomerProfile)
    (now : String) (hist0 : List Turn) (log0 : List LogMessage)
    (inp : Option String) (pre : List ToolCall) (bad : ToolCall)
    (post : List ToolCall)
    (hsplit : (plan_phase resp c now hist0 log0 inp).2 = pre ++ bad :: post)
    (hreg : bad.name ∈ ToolRegistry.registered_tool_names)
    (hbad : ToolRegistry.bind_ok bad.name bad.args = false)
    (hpre : ∀ x ∈ pre, x.name ∈ ToolRegistry.registered_tool_names →
      ToolRegistry.bind_ok x.name x.args = true) :
    sense_plan_act resp c now hist0 log0 inp =
      .error ("TypeError: bad arguments for " ++ bad.name) := by
  have hne : (plan_phase resp c now hist0 log0 inp).2 ≠ [] := by
    rw [hsplit]
    exact List.append_ne_nil_of_right_ne_nil pre (List.cons_ne_nil bad post)
  have hd : dispatch_tool_calls c now (plan_phase resp c now hist0 log0 inp).2 =
      .error ("TypeError: bad arguments for " ++ bad.name) := by
    rw [hsplit]
    exact dispatch_tool_calls_error c now pre bad post hpre hreg hbad
  exact sense_plan_act_err_of_dispatch resp c now hist0 log0 inp _ hne hd

/-- C3 witness: instantiating the amended claim at the missing-`reason`
escalation request reproduces the aborting TypeError. -/
theorem binding_failure_aborts_witness :
    sense_plan_act resp_bad_escalate c_no_consent "t1" [] [] (some "hello") =
      .error "TypeError: bad arguments for escalate_to_human" := by
  have h := binding_failure_aborts resp_bad_escalate c_no_consent "t1" [] []
    (some "hello") [] ⟨"call_1", "escalate_to_human", []⟩ [] rfl (by decide) (by decide)
    (fun x hx => absurd hx (List.not_mem_nil x))
  rw [h]; rfl
